import Mathlib

/-!
Verification of the kodik-bot core against its natural-language spec.

The definitions below are a shallow embedding of the repository's
Python source.  Redis-backed state (the job queue, the admin-pending
correlation table, the group buffers, the seen sets and the chat
registry) is modelled as explicit functional state; each Python
function that touches the store becomes a Lean function from the old
state (plus its inputs) to the new state and its observable effects.
Serialization (`json.dumps` / `json.loads`) is modelled as the
identity, which is exact for the flat records the code round-trips.
-/

/-- A JSON value as it appears in the flat job records the code builds
(`json.dumps` of a dict of strings, ints and booleans). -/
inductive JVal
  | s (v : String)
  | i (v : Int)
  | b (v : Bool)
deriving DecidableEq, Repr

/-- A flat JSON object: the job dicts built in `storage/redis_store.py`. -/
abbrev JObj := List (String × JVal)

/-- `obj.get(key)` / `obj[key]` on a job dict. -/
def jget (o : JObj) (k : String) : Option JVal :=
  (o.find? (fun p => p.1 == k)).map (fun p => p.2)

/-- The Redis list behind `QUEUE_KEY`; `rpush` appends at the tail,
`blpop` pops at the head. -/
abbrev JobQueue := List JObj

/-- `rpush` (redis list append at the tail). -/
def rpushJob (q : JobQueue) (j : JObj) : JobQueue := q ++ [j]

/-- The record `enqueue_new_message` builds (redis_store.py lines 36-46):
the tag plus the required fields, with `reply_message_id` added only when
not `None` and `is_admin_chat` added only when `True`. -/
def newMessageJob (user_id chat_id : Int) (thread_id text : String)
    (reply_message_id : Option Int) (is_admin_chat : Bool) : JObj :=
  [("type", JVal.s "new"), ("user_id", JVal.i user_id),
   ("chat_id", JVal.i chat_id), ("thread_id", JVal.s thread_id),
   ("text", JVal.s text)]
  ++ (match reply_message_id with
      | some r => [("reply_message_id", JVal.i r)]
      | none => [])
  ++ (if is_admin_chat then [("is_admin_chat", JVal.b true)] else [])

/-- `enqueue_new_message` (redis_store.py lines 28-48). -/
def enqueue_new_message (q : JobQueue) (user_id chat_id : Int)
    (thread_id text : String) (reply_message_id : Option Int)
    (is_admin_chat : Bool) : JobQueue :=
  rpushJob q (newMessageJob user_id chat_id thread_id text reply_message_id is_admin_chat)

/-- The record `enqueue_resume` builds (redis_store.py lines 54-59). -/
def resumeJob (thread_id : String) (user_chat_id : Int) (human_reply : String) : JObj :=
  [("type", JVal.s "resume"), ("thread_id", JVal.s thread_id),
   ("user_chat_id", JVal.i user_chat_id), ("human_reply", JVal.s human_reply)]

/-- `enqueue_resume` (redis_store.py lines 51-61). -/
def enqueue_resume (q : JobQueue) (thread_id : String) (user_chat_id : Int)
    (human_reply : String) : JobQueue :=
  rpushJob q (resumeJob thread_id user_chat_id human_reply)

/-- The record `enqueue_admin_reply` builds (redis_store.py lines 147-153);
note the user's chat id is stored under the key `"chat_id"`. -/
def adminReplyJob (thread_id : String) (user_chat_id user_id : Int)
    (admin_reply_text : String) : JObj :=
  [("type", JVal.s "admin_reply"), ("thread_id", JVal.s thread_id),
   ("chat_id", JVal.i user_chat_id), ("user_id", JVal.i user_id),
   ("admin_reply", JVal.s admin_reply_text)]

/-- `enqueue_admin_reply` (redis_store.py lines 143-155). -/
def enqueue_admin_reply (q : JobQueue) (thread_id : String)
    (user_chat_id user_id : Int) (admin_reply_text : String) : JobQueue :=
  rpushJob q (adminReplyJob thread_id user_chat_id user_id admin_reply_text)

/-- `dequeue_job` (redis_store.py lines 64-73): BLPOP the head of the
queue and parse it; `none` models the timeout on an empty queue. -/
def dequeue_job (q : JobQueue) : Option JObj × JobQueue :=
  match q with
  | [] => (none, [])
  | j :: rest => (some j, rest)

/-- `ADMIN_PENDING_TTL` (redis_store.py line 12): 72 hours in seconds. -/
def ADMIN_PENDING_TTL : Nat := 60 * 60 * 72

/-- The hash `set_admin_pending` stores under `admin_pending:<msg_id>`
(redis_store.py lines 163-168); the numeric fields are stored as
strings (`str(user_chat_id)`, `str(user_id)`). -/
structure PendingHash where
  thread_id : String
  user_chat_id : String
  user_id : String
  question : String
deriving DecidableEq, Repr

/-- The admin-pending keyspace: for each handle (the admin-group
message id) either nothing, or the stored hash together with the
absolute expiry deadline set by the last `EXPIRE`. -/
abbrev PendingStore := Int → Option (PendingHash × Nat)

/-- `set_admin_pending` (redis_store.py lines 158-172): `HSET` the
mapping under the handle's key, then `EXPIRE` it to
`ADMIN_PENDING_TTL` seconds from now (each call resets the deadline). -/
def set_admin_pending (ps : PendingStore) (now : Nat) (admin_msg_id : Int)
    (thread_id : String) (user_chat_id user_id : Int)
    (escalation_question : String) : PendingStore :=
  fun h =>
    if h = admin_msg_id then
      some (⟨thread_id, toString user_chat_id, toString user_id,
             escalation_question⟩, now + ADMIN_PENDING_TTL)
    else ps h

/-- `HGETALL` on the handle's key at time `now`: Redis returns the hash
only while the key has not yet expired. -/
def hgetallPending (ps : PendingStore) (now : Nat) (h : Int) : Option PendingHash :=
  match ps h with
  | some (d, deadline) => if now < deadline then some d else none
  | none => none

/-- `DEL` on the handle's key. -/
def delPending (ps : PendingStore) (h : Int) : PendingStore :=
  fun k => if k = h then none else ps k

/-- `get_and_delete_admin_pending` (redis_store.py lines 175-188) run
to completion with no interleaving: `HGETALL`, and if the hash was
non-empty, `DEL` and return it.  Returns the value and the store after
the call. -/
def get_and_delete_admin_pending (ps : PendingStore) (now : Nat) (h : Int) :
    Option PendingHash × PendingStore :=
  match hgetallPending ps now h with
  | none => (none, ps)
  | some d => (some d, delPending ps h)

/-- One in-flight call of `get_and_delete_admin_pending`: before the
`await r.hgetall(key)`, after it (holding the read result), or
returned.  The function body has two store operations separated by an
await point, so concurrent calls may interleave between them. -/
inductive PendingCall
  | idle
  | readDone (d : Option PendingHash)
  | finished (r : Option PendingHash)
deriving DecidableEq, Repr

/-- One atomic step of an in-flight `get_and_delete_admin_pending`
call: the `HGETALL`, then (depending on what it read) either the early
`return None` or the `DEL` + `return data`. -/
def pending_call_step (now : Nat) (h : Int) (c : PendingCall) (ps : PendingStore) :
    PendingCall × PendingStore :=
  match c with
  | .idle => (.readDone (hgetallPending ps now h), ps)
  | .readDone none => (.finished none, ps)
  | .readDone (some d) => (.finished (some d), delPending ps h)
  | .finished r => (.finished r, ps)

/-- Two concurrent `get_and_delete_admin_pending` calls for the same
handle, driven by a schedule: `true` steps the first caller, `false`
the second. -/
def run_two_pending_calls (now : Nat) (h : Int) :
    List Bool → PendingCall × PendingCall × PendingStore →
    PendingCall × PendingCall × PendingStore
  | [], st => st
  | tick :: rest, (c1, c2, ps) =>
      if tick then
        let (c1', ps') := pending_call_step now h c1 ps
        run_two_pending_calls now h rest (c1', c2, ps')
      else
        let (c2', ps') := pending_call_step now h c2 ps
        run_two_pending_calls now h rest (c1, c2', ps')

/-- The store containing exactly one pending entry, used as the
concrete failing input. -/
def racePendingStore : PendingStore :=
  set_admin_pending (fun _ => none) 0 7 "thread-1" 5 9 "how do I reset my config?"

/-- The hash that `set_admin_pending` stored in `racePendingStore`. -/
def raceEntry : PendingHash :=
  ⟨"thread-1", "5", "9", "how do I reset my config?"⟩

/-- `GROUP_BUFFER_MAX` (redis_store.py line 79). -/
def GROUP_BUFFER_MAX : Nat := 200

/-- The payload `group_buffer_push` serializes into the buffer list
(redis_store.py line 92). -/
structure GroupMsg where
  message_id : Int
  user_id : Int
  text : String
deriving DecidableEq, Repr

/-- The group-monitor keyspace: the `group_chats` registry set, the
per-chat `group_buffer:<chat_id>` lists and the per-chat
`group_seen:<chat_id>` sets. -/
structure GroupStore where
  registry : List Int
  buffers : Int → List GroupMsg
  seen : Int → List Int

/-- The store with no registered chats, no buffers and no seen ids. -/
def emptyGroupStore : GroupStore := ⟨[], fun _ => [], fun _ => []⟩

/-- `LTRIM key -n -1`: keep only the last `n` elements (the whole list
when it is shorter than `n`). -/
def ltrimLast (n : Nat) (l : List α) : List α := l.drop (l.length - n)

/-- `SADD` on a set modelled as a duplicate-free list. -/
def saddInt (l : List Int) (x : Int) : List Int :=
  if x ∈ l then l else l ++ [x]

/-- `group_buffer_push` (redis_store.py lines 83-98): `RPUSH` the
payload, `LTRIM` to the last `GROUP_BUFFER_MAX` entries, refresh the
TTL and `SADD` the chat into the registry. -/
def group_buffer_push (s : GroupStore) (chat_id : Int) (m : GroupMsg) : GroupStore :=
  { registry := saddInt s.registry chat_id
    buffers := fun c =>
      if c = chat_id then ltrimLast GROUP_BUFFER_MAX (s.buffers chat_id ++ [m])
      else s.buffers c
    seen := s.seen }

/-- `LRANGE key 0 (size-1)`: the first `size` elements, or the whole
list when `size = 0` (Redis reads the stop index `-1` as the end). -/
def lrangeFront (l : List GroupMsg) (size : Nat) : List GroupMsg :=
  if size = 0 then l else l.take size

/-- `group_buffer_pop_batch` (redis_store.py lines 101-119): read the
first `size` items and the length; if anything was read, either `SREM`
the chat from the registry (when the read covered the whole list —
note the read items are NOT removed in this branch) or `LTRIM` the
read items away.  Returns the new store and the parsed items. -/
def group_buffer_pop_batch (s : GroupStore) (chat_id : Int) (size : Nat) :
    GroupStore × List GroupMsg :=
  let key := s.buffers chat_id
  let raw_items := lrangeFront key size
  let total := key.length
  if raw_items.isEmpty then (s, raw_items)
  else if total - raw_items.length = 0 then
    ({ s with registry := s.registry.filter (fun c => c != chat_id) }, raw_items)
  else
    ({ s with buffers := fun c =>
        if c = chat_id then key.drop raw_items.length else s.buffers c },
     raw_items)

/-- `group_seen_check` (redis_store.py lines 122-126): `SISMEMBER`. -/
def group_seen_check (s : GroupStore) (chat_id message_id : Int) : Bool :=
  (s.seen chat_id).contains message_id

/-- `group_seen_add` (redis_store.py lines 129-134): `SADD` plus a TTL
refresh on the seen set. -/
def group_seen_add (s : GroupStore) (chat_id message_id : Int) : GroupStore :=
  { s with seen := fun c =>
      if c = chat_id then saddInt (s.seen chat_id) message_id else s.seen c }

/-- Redis TTL expiry of a chat's buffer key: the list vanishes; nothing
else (in particular not the registry) is touched. -/
def group_buffer_key_expire (s : GroupStore) (chat_id : Int) : GroupStore :=
  { s with buffers := fun c => if c = chat_id then [] else s.buffers c }

/-- `collect_group_message` (bot/group.py lines 151-158): skip if the
message id is already in the chat's seen set, else mark it seen and
push it into the chat's buffer. -/
def collect_group_message (s : GroupStore) (chat_id : Int) (m : GroupMsg) : GroupStore :=
  if group_seen_check s chat_id m.message_id then s
  else group_buffer_push (group_seen_add s chat_id m.message_id) chat_id m

/-- Concrete group message for the C6 counterexample trace. -/
def c6Msg : GroupMsg := ⟨1, 10, "export crashes on an empty file"⟩

/-- Reachable state: one message pushed for chat 7. -/
def c6AfterPush : GroupStore := group_buffer_push emptyGroupStore 7 c6Msg

/-- Reachable state: a batch pop of size 20 for chat 7 after the push
(the pop covers the whole buffer). -/
def c6AfterPop : GroupStore := (group_buffer_pop_batch c6AfterPush 7 20).1

/-- Reachable state: the same pop state with a message pushed for chat
8 and chat 8's buffer then expiring via its TTL. -/
def c6AfterExpire : GroupStore :=
  group_buffer_key_expire (group_buffer_push c6AfterPop 8 c6Msg) 8

/-- A conversation message as the worker handlers see it: the
langchain `HumanMessage` / `AIMessage` (with its `tool_calls` list) /
tool-result distinction. -/
inductive ChatMsg
  | human (content : String)
  | ai (content : String) (tool_calls : List String)
  | tool (content : String)
deriving DecidableEq, Repr

/-- The two invocation forms of the external Agent: a fresh turn from
an initial state (`graph.ainvoke(initial_state, config)`, carrying the
fields the handlers put into the state) and a resume
(`graph.ainvoke(Command(resume=human_reply), config)`). -/
inductive GraphCall
  | newTurn (text thread_id : String) (user_chat_id user_id : Int)
      (is_admin_chat : Bool)
  | resumeCmd (human_reply thread_id : String)
deriving DecidableEq, Repr

/-- A `bot.send_message` effect. -/
structure SendEffect where
  chat_id : Int
  text : String
  reply_to : Option Int
deriving DecidableEq, Repr

/-- The extraction loop of the handlers (`for msg in
reversed(messages): if isinstance(msg, AIMessage) and not
msg.tool_calls: ... break`), as recursion over the reversed list. -/
def findFinalAi : List ChatMsg → Option String
  | [] => none
  | .ai c [] :: _ => some c
  | _ :: rest => findFinalAi rest

/-- The last tool-call-free AI message of a transcript
(workers/worker.py lines 66-69 and queue/worker.py lines 85-88). -/
def extractFinal (msgs : List ChatMsg) : Option String :=
  findFinalAi msgs.reverse

/-- The identical extraction loop as it appears once more in
queue/worker.py's `_handle_resume` (lines 128-131), rendered with
`findSome?` to keep the two source copies separate. -/
def extractFinalResume (msgs : List ChatMsg) : Option String :=
  msgs.reverse.findSome? (fun m =>
    match m with
    | .ai c [] => some c
    | _ => none)

/-- The fields `_handle_new` reads out of a `new` job
(workers/worker.py lines 49-59). -/
structure NewTurnFields where
  user_id : Int
  chat_id : Int
  thread_id : String
  text : String
  reply_message_id : Option Int
  is_admin_chat : Bool
deriving DecidableEq, Repr

/-- The `Message` ORM row `_handle_new` persists (workers/worker.py
lines 71-79). -/
structure DbMessage where
  user_id : Int
  chat_id : Int
  thread_id : String
  user_text : String
  ai_response : Option String
deriving DecidableEq, Repr

/-- `WorkerPool._handle_new` of the live pool (workers/worker.py lines
45-90) over the agent oracle: invoke the graph on the initial state,
extract the last tool-call-free AI message, persist the exchange —
`logOk = false` models `session.commit()` raising, which aborts the
handler, rolls back the row and propagates BEFORE the send — then
deliver the message (with the job's `reply_message_id`) when there is
one.  Returns the DB rows written and the send effects performed. -/
def handle_new_run (graph : GraphCall → List ChatMsg) (logOk : Bool)
    (j : NewTurnFields) : Except String (List DbMessage × List SendEffect) :=
  let msgs := graph (.newTurn j.text j.thread_id j.chat_id j.user_id j.is_admin_chat)
  let final := extractFinal msgs
  if logOk then
    .ok ([⟨j.user_id, j.chat_id, j.thread_id, j.text, final⟩],
      match final with
      | some m => [⟨j.chat_id, m, j.reply_message_id⟩]
      | none => [])
  else .error "database commit failed"

/-- The send effects a handler outcome actually performed: an exception
aborts `_handle_new` before `bot.send_message`, so an error means
nothing was sent. -/
def sendsOf (r : Except String (List DbMessage × List SendEffect)) : List SendEffect :=
  match r with
  | .ok (_, sends) => sends
  | .error _ => []

/-- The dispatch arms of the live worker loop (workers/worker.py lines
138-144). -/
inductive WorkerDispatch
  | toHandleNew
  | toHandleAdminReply
  | unknownType
deriving DecidableEq, Repr

/-- `job_type = job.get("type")` and the `if`/`elif`/`else` chain of
the live `_worker_loop` (workers/worker.py lines 138-144). -/
def worker_dispatch (job : JObj) : WorkerDispatch :=
  let jt := jget job "type"
  if jt = some (JVal.s "new") then .toHandleNew
  else if jt = some (JVal.s "admin_reply") then .toHandleAdminReply
  else .unknownType

/-- The dispatch arms of the legacy pool (queue/worker.py lines
175-181). -/
inductive QueueWorkerDispatch
  | toHandleNew
  | toHandleResume
  | unknownType
deriving DecidableEq, Repr

/-- The `if`/`elif`/`else` chain of the legacy `_worker_loop`
(queue/worker.py lines 175-181). -/
def queue_worker_dispatch (job : JObj) : QueueWorkerDispatch :=
  let jt := jget job "type"
  if jt = some (JVal.s "new") then .toHandleNew
  else if jt = some (JVal.s "resume") then .toHandleResume
  else .unknownType

/-- `_handle_resume` of the legacy pool (queue/worker.py lines
117-136): re-invoke the agent with `Command(resume=human_reply)` for
the job's thread, then send the extracted final AI message to the
user's chat. -/
def queue_handle_resume (graph : GraphCall → List ChatMsg)
    (thread_id : String) (user_chat_id : Int) (human_reply : String) :
    List SendEffect :=
  let msgs := graph (.resumeCmd human_reply thread_id)
  match extractFinalResume msgs with
  | some m => [⟨user_chat_id, m, none⟩]
  | none => []

/-- The delivery step of the legacy `_handle_new` (queue/worker.py
lines 112-115): send the last tool-call-free AI message to the chat. -/
def queue_new_delivery (chat_id : Int) (msgs : List ChatMsg) : List SendEffect :=
  match extractFinal msgs with
  | some m => [⟨chat_id, m, none⟩]
  | none => []

/-- What one iteration of the live worker loop does with one dequeue
result (workers/worker.py lines 132-150): skip on timeout, dispatch by
the `"type"` tag, turn a raising handler into a logged event, warn on
an unknown type.  Handlers are arbitrary (`Except`-valued) functions of
the job. -/
inductive LoopEvent
  | timedOut
  | handled (effects : List SendEffect)
  | warnedUnknown
  | loggedError (e : String)
deriving DecidableEq, Repr

/-- One iteration of the live `_worker_loop` body. -/
def worker_loop_iter (hNew hAdmin : JObj → Except String (List SendEffect))
    (item : Option JObj) : LoopEvent :=
  match item with
  | none => .timedOut
  | some job =>
    match worker_dispatch job with
    | .toHandleNew =>
        match hNew job with
        | .ok es => .handled es
        | .error e => .loggedError e
    | .toHandleAdminReply =>
        match hAdmin job with
        | .ok es => .handled es
        | .error e => .loggedError e
    | .unknownType => .warnedUnknown

/-- The live worker loop over a finite trace of dequeue results,
mirrored as recursion on the trace (the `while True` only exits by
cancellation, modelled as the end of the trace). -/
def worker_loop_run (hNew hAdmin : JObj → Except String (List SendEffect)) :
    List (Option JObj) → List LoopEvent
  | [] => []
  | item :: rest =>
      worker_loop_iter hNew hAdmin item :: worker_loop_run hNew hAdmin rest

/-- The escalation notification `ask_human` sends to the admin group
(tools.py lines 42-56): its payload is the question and the thread id;
the transport's returned message id is the outbound handle. -/
structure NotifyEffect where
  admin_group_id : Int
  question : String
  thread_id : String
deriving DecidableEq, Repr

/-- The `Escalation` ORM row `ask_human` persists (tools.py lines
65-74). -/
structure EscalationRow where
  thread_id : String
  user_chat_id : Int
  question : String
  admin_msg_id : Int
deriving DecidableEq, Repr

/-- Everything `ask_human` does and returns: the admin-group
notification, the admin-pending store after the write, the DB rows
inserted, and the tool's string result. -/
structure AskHumanOut where
  notify : NotifyEffect
  store : PendingStore
  db_rows : List EscalationRow
  tool_return : String

/-- The fixed acknowledgment string `ask_human` returns as the tool
result (tools.py lines 81-84; the file's literal bytes, which are
mojibake of the intended Russian text). -/
def ask_human_ack : String :=
  "Ğ’Ğ°Ñˆ Ğ²Ğ¾Ğ¿Ñ€Ğ¾Ñ Ğ¿ĞµÑ€ĞµĞ´Ğ°Ğ½ ĞºĞ¾Ğ¼Ğ°Ğ½Ğ´Ğµ Ğ¿Ğ¾Ğ´Ğ´ĞµÑ€Ğ¶ĞºĞ¸. "
  ++ "ĞĞ½Ğ¸ Ğ¾Ñ‚Ğ²ĞµÑ‚ÑÑ‚ Ğ²Ğ°Ğ¼ Ğ½Ğ°Ğ¿Ñ€ÑĞ¼Ğ¾Ğ² Ğ² Ğ±Ğ»Ğ¸Ğ¶Ğ°Ğ¹ÑˆĞµĞµ Ğ²Ñ€ĞµĞ¼Ñ."

/-- `ask_human` (agent/tools.py lines 24-84) as a function of the
transport's returned message id (`sent.message_id`): notify the admin
group with the question, store the admin-pending hash keyed by that
handle via `set_admin_pending`, insert an `Escalation` row, and return
the fixed acknowledgment string to the agent. -/
def ask_human_run (admin_group_id : Int) (ps : PendingStore) (now : Nat)
    (thread_id : String) (user_chat_id user_id : Int) (question : String)
    (sent_message_id : Int) : AskHumanOut :=
  { notify := ⟨admin_group_id, question, thread_id⟩
    store := set_admin_pending ps now sent_message_id thread_id user_chat_id
        user_id question
    db_rows := [⟨thread_id, user_chat_id, question, sent_message_id⟩]
    tool_return := ask_human_ack }

/-- An agent transcript in which the agent escalated (an `ask_human`
tool call ran) and then produced a final assistant message, as the live
graph yields: the tool returns a string and the model keeps going. -/
def escalatedMsgs : List ChatMsg :=
  [.human "how do I reset my config?",
   .ai "" ["ask_human"],
   .tool "escalated",
   .ai "The team will reach out shortly." []]

/-- The NewTurn job fields paired with `escalatedMsgs`. -/
def escalatedJob : NewTurnFields :=
  ⟨1, 5, "thread-1", "how do I reset my config?", none, false⟩

/-- C10: enqueue/dequeue round-trip.  Pushing one job onto an empty
queue and dequeuing returns exactly the record each enqueue function
built; the optional key `reply_message_id` is present iff the argument
was not `None`, and `is_admin_chat` is present iff it was `True`. -/
theorem enqueue_dequeue_round_trip
    (user_id chat_id user_chat_id uid2 : Int)
    (thread_id text human_reply admin_reply_text : String)
    (reply_message_id : Option Int) (is_admin_chat : Bool) :
    dequeue_job (enqueue_new_message [] user_id chat_id thread_id text
        reply_message_id is_admin_chat)
      = (some (newMessageJob user_id chat_id thread_id text
          reply_message_id is_admin_chat), [])
    ∧ jget (newMessageJob user_id chat_id thread_id text
          reply_message_id is_admin_chat) "reply_message_id"
        = reply_message_id.map JVal.i
    ∧ jget (newMessageJob user_id chat_id thread_id text
          reply_message_id is_admin_chat) "is_admin_chat"
        = (if is_admin_chat then some (JVal.b true) else none)
    ∧ (jget (newMessageJob user_id chat_id thread_id text
          reply_message_id is_admin_chat) "reply_message_id" ≠ none
        ↔ reply_message_id ≠ none)
    ∧ (jget (newMessageJob user_id chat_id thread_id text
          reply_message_id is_admin_chat) "is_admin_chat" ≠ none
        ↔ is_admin_chat = true)
    ∧ dequeue_job (enqueue_resume [] thread_id user_chat_id human_reply)
        = (some (resumeJob thread_id user_chat_id human_reply), [])
    ∧ dequeue_job (enqueue_admin_reply [] thread_id user_chat_id uid2
        admin_reply_text)
        = (some (adminReplyJob thread_id user_chat_id uid2 admin_reply_text), []) := by
  have hq : ∀ j : JObj, dequeue_job (rpushJob [] j) = (some j, []) := by
    intro j; rfl
  refine ⟨hq _, ?_, ?_, ?_, ?_, hq _, hq _⟩
  · cases reply_message_id <;> cases is_admin_chat <;> rfl
  · cases reply_message_id <;> cases is_admin_chat <;> rfl
  · cases reply_message_id <;> cases is_admin_chat <;> simp [jget, newMessageJob]
  · cases reply_message_id <;> cases is_admin_chat <;> simp [jget, newMessageJob]

/-- C1: `get_and_delete_admin_pending` is NOT an atomic get-and-delete.
The body is `HGETALL` followed by `DEL` with an await point between
them, so two concurrent calls for the same handle can interleave as
read-read-delete-delete and BOTH return the pending entry, contradicting
the claim (and the function's own docstring, which says "Retrieve and
atomically delete").  Run sequentially the second call does return
`None`, so the failure is precisely the lost atomicity. -/
theorem get_and_delete_admin_pending_not_atomic :
    (run_two_pending_calls 0 7 [true, false, true, false]
        (PendingCall.idle, PendingCall.idle, racePendingStore)).1
      = PendingCall.finished (some raceEntry)
    ∧ (run_two_pending_calls 0 7 [true, false, true, false]
        (PendingCall.idle, PendingCall.idle, racePendingStore)).2.1
      = PendingCall.finished (some raceEntry)
    ∧ (run_two_pending_calls 0 7 [true, true, false, false]
        (PendingCall.idle, PendingCall.idle, racePendingStore)).1
      = PendingCall.finished (some raceEntry)
    ∧ (run_two_pending_calls 0 7 [true, true, false, false]
        (PendingCall.idle, PendingCall.idle, racePendingStore)).2.1
      = PendingCall.finished none := by
  refine ⟨?_, ?_, ?_, ?_⟩ <;> rfl

/-- C9: a pending escalation registered by `set_admin_pending` and
never consumed becomes unreachable once the 72-hour TTL has elapsed
(`get_and_delete_admin_pending` returns `None` from then on), the TTL
constant is exactly 72 hours, and registering the same handle again
resets the deadline to 72 hours after the new registration. -/
theorem admin_pending_ttl_expiry_and_reset
    (ps : PendingStore) (now : Nat) (h : Int) (thread_id : String)
    (user_chat_id user_id : Int) (question : String) :
    ADMIN_PENDING_TTL = 60 * 60 * 72
    ∧ (∀ t, now + ADMIN_PENDING_TTL ≤ t →
        (get_and_delete_admin_pending
          (set_admin_pending ps now h thread_id user_chat_id user_id question)
          t h).1 = none)
    ∧ (∀ t2 t3, t3 < t2 + ADMIN_PENDING_TTL →
        (get_and_delete_admin_pending
          (set_admin_pending
            (set_admin_pending ps now h thread_id user_chat_id user_id question)
            t2 h thread_id user_chat_id user_id question)
          t3 h).1
        = some ⟨thread_id, toString user_chat_id, toString user_id, question⟩) := by
  refine ⟨rfl, ?_, ?_⟩
  · intro t ht
    simp only [get_and_delete_admin_pending, hgetallPending, set_admin_pending,
      if_pos rfl]
    have : ¬ t < now + ADMIN_PENDING_TTL := Nat.not_lt.mpr ht
    simp [this]
  · intro t2 t3 ht
    simp only [get_and_delete_admin_pending, hgetallPending, set_admin_pending,
      if_pos rfl]
    simp [ht]

/-- Witness for C9 at concrete inputs: an entry registered at time 0
for handle 3 is gone at `t = ADMIN_PENDING_TTL`, and after
re-registration at time 100 it is still alive at `t = 259299`. -/
theorem admin_pending_ttl_expiry_and_reset_witness :
    (get_and_delete_admin_pending
      (set_admin_pending (fun _ => none) 0 3 "t-9" 5 9 "q9")
      259200 3).1 = none
    ∧ (get_and_delete_admin_pending
        (set_admin_pending
          (set_admin_pending (fun _ => none) 0 3 "t-9" 5 9 "q9")
          100 3 "t-9" 5 9 "q9")
        259299 3).1 = some ⟨"t-9", "5", "9", "q9"⟩ := by
  refine ⟨?_, ?_⟩
  · exact (admin_pending_ttl_expiry_and_reset (fun _ => none) 0 3 "t-9" 5 9 "q9").2.1
      259200 (by decide)
  · exact (admin_pending_ttl_expiry_and_reset (fun _ => none) 0 3 "t-9" 5 9 "q9").2.2
      100 259299 (by decide)

theorem ltrimLast_append_left (n : Nat) (l r : List α) :
    ltrimLast n (ltrimLast n l ++ r) = ltrimLast n (l ++ r) := by
  unfold ltrimLast
  have hkl : l.length - n ≤ l.length := Nat.sub_le _ _
  rw [← List.drop_append_of_le_length hkl, List.drop_drop]
  congr 1
  simp only [List.length_drop, List.length_append]
  omega

theorem length_ltrimLast (n : Nat) (l : List α) :
    (ltrimLast n l).length = min l.length n := by
  unfold ltrimLast
  rw [List.length_drop]
  omega

theorem foldl_group_buffer_push (chat : Int) (msgs : List GroupMsg) (s : GroupStore) :
    (msgs.foldl (fun st m => group_buffer_push st chat m) s).buffers chat
      = msgs.foldl (fun b m => ltrimLast GROUP_BUFFER_MAX (b ++ [m])) (s.buffers chat) := by
  induction msgs generalizing s with
  | nil => rfl
  | cons m rest ih =>
      simp only [List.foldl_cons]
      rw [ih]
      simp [group_buffer_push]

theorem foldl_ltrim_eq (n : Nat) (msgs : List α) : ∀ b : List α,
    msgs.foldl (fun acc m => ltrimLast n (acc ++ [m])) (ltrimLast n b)
      = ltrimLast n (b ++ msgs) := by
  induction msgs with
  | nil => intro b; simp
  | cons m rest ih =>
      intro b
      simp only [List.foldl_cons]
      rw [ltrimLast_append_left]
      simpa using ih (b ++ [m])

/-- C7: starting from an empty buffer, after any sequence of pushes the
chat's buffer is exactly the most recent `min(n, GROUP_BUFFER_MAX)`
pushed messages in insertion order (the `LTRIM -200 -1` keeps the tail,
so the oldest entries are evicted first), its length is that minimum,
it never exceeds the cap, and the cap is 200. -/
theorem group_buffer_push_cap_fifo (s : GroupStore) (chat : Int) (msgs : List GroupMsg)
    (h : s.buffers chat = []) :
    GROUP_BUFFER_MAX = 200
    ∧ (msgs.foldl (fun st m => group_buffer_push st chat m) s).buffers chat
        = ltrimLast GROUP_BUFFER_MAX msgs
    ∧ ((msgs.foldl (fun st m => group_buffer_push st chat m) s).buffers chat).length
        = min msgs.length GROUP_BUFFER_MAX
    ∧ ((msgs.foldl (fun st m => group_buffer_push st chat m) s).buffers chat).length
        ≤ GROUP_BUFFER_MAX := by
  have key : (msgs.foldl (fun st m => group_buffer_push st chat m) s).buffers chat
      = ltrimLast GROUP_BUFFER_MAX msgs := by
    rw [foldl_group_buffer_push, h]
    have h0 : ltrimLast GROUP_BUFFER_MAX ([] : List GroupMsg) = [] := rfl
    have := foldl_ltrim_eq GROUP_BUFFER_MAX msgs ([] : List GroupMsg)
    rw [h0] at this
    simpa using this
  refine ⟨rfl, key, ?_, ?_⟩
  · rw [key, length_ltrimLast]
  · rw [key, length_ltrimLast]; omega

/-- Witness for C7 at a concrete input: two messages pushed into an
empty buffer for chat 1. -/
theorem group_buffer_push_cap_fifo_witness :
    GROUP_BUFFER_MAX = 200
    ∧ ([⟨1, 4, "a"⟩, ⟨2, 4, "b"⟩].foldl
          (fun st m => group_buffer_push st 1 m) emptyGroupStore).buffers 1
        = ltrimLast GROUP_BUFFER_MAX [⟨1, 4, "a"⟩, ⟨2, 4, "b"⟩]
    ∧ (([⟨1, 4, "a"⟩, ⟨2, 4, "b"⟩].foldl
          (fun st m => group_buffer_push st 1 m) emptyGroupStore).buffers 1).length
        = min ([⟨1, 4, "a"⟩, ⟨2, 4, "b"⟩] : List GroupMsg).length GROUP_BUFFER_MAX
    ∧ (([⟨1, 4, "a"⟩, ⟨2, 4, "b"⟩].foldl
          (fun st m => group_buffer_push st 1 m) emptyGroupStore).buffers 1).length
        ≤ GROUP_BUFFER_MAX :=
  group_buffer_push_cap_fifo emptyGroupStore 1 [⟨1, 4, "a"⟩, ⟨2, 4, "b"⟩] rfl

theorem length_lrangeFront_le (l : List GroupMsg) (size : Nat) :
    (lrangeFront l size).length ≤ l.length := by
  unfold lrangeFront
  split
  · exact Nat.le_refl _
  · simp

/-- C6 counterexample: the registry/buffer invariant fails on two
reachable states.  After pushing one message for chat 7 and popping a
batch of 20 (which covers the whole buffer), chat 7 is gone from the
registry but its buffer still physically holds the item (the full-drain
branch never trims the list); and after chat 8's buffer expires via its
TTL, the buffer is empty but chat 8 is still registered. -/
theorem registry_buffer_invariant_fails :
    (group_buffer_pop_batch c6AfterPush 7 20).2 = [c6Msg]
    ∧ 7 ∉ c6AfterPop.registry
    ∧ c6AfterPop.buffers 7 ≠ []
    ∧ 8 ∈ c6AfterExpire.registry
    ∧ c6AfterExpire.buffers 8 = [] := by
  refine ⟨?_, ?_, ?_, ?_, ?_⟩ <;> decide

/-- C6 amended: what the code does guarantee.  A push registers the
chat and leaves its buffer non-empty; a batch pop that returns a
non-empty batch covering the whole buffer removes the chat from the
registry.  (The iff-invariant of the claim fails: the full-drain branch
leaves the buffer contents in place, and TTL expiry of a buffer never
deregisters the chat.) -/
theorem push_registers_full_pop_deregisters (s : GroupStore) (chat : Int)
    (m : GroupMsg) (size : Nat) :
    (chat ∈ (group_buffer_push s chat m).registry
      ∧ (group_buffer_push s chat m).buffers chat ≠ [])
    ∧ (∀ s' items, group_buffer_pop_batch s chat size = (s', items) →
        items ≠ [] → items.length = (s.buffers chat).length →
        chat ∉ s'.registry) := by
  constructor
  · constructor
    · simp only [group_buffer_push, saddInt]
      split
      · assumption
      · simp
    · intro hcontra
      have hb : (group_buffer_push s chat m).buffers chat
          = ltrimLast GROUP_BUFFER_MAX (s.buffers chat ++ [m]) := by
        simp [group_buffer_push]
      rw [hb] at hcontra
      have hl := congrArg List.length hcontra
      rw [length_ltrimLast] at hl
      simp only [List.length_append, List.length_cons, List.length_nil,
        GROUP_BUFFER_MAX] at hl
      omega
  · intro s' items hpop hne hlen
    simp only [group_buffer_pop_batch] at hpop
    split at hpop
    · rename_i hempty
      have : items = lrangeFront (s.buffers chat) size := (Prod.mk.injEq _ _ _ _ ▸ hpop).2.symm
      rw [List.isEmpty_iff] at hempty
      exact absurd (this ▸ hempty) hne
    · split at hpop
      · have hs' : s' = { s with registry := s.registry.filter (fun c => c != chat) } :=
          ((Prod.mk.injEq _ _ _ _ ▸ hpop).1).symm
        rw [hs']
        intro hmem
        simp at hmem
      · rename_i hempty hrem
        have hitems : items = lrangeFront (s.buffers chat) size :=
          ((Prod.mk.injEq _ _ _ _ ▸ hpop).2).symm
        have hle := length_lrangeFront_le (s.buffers chat) size
        rw [hitems] at hlen
        omega

/-- Witness for C6 amended at concrete inputs: push one message for
chat 1 into the empty store, then pop a batch of 20. -/
theorem push_registers_full_pop_deregisters_witness :
    (1 ∈ (group_buffer_push emptyGroupStore 1 c6Msg).registry
      ∧ (group_buffer_push emptyGroupStore 1 c6Msg).buffers 1 ≠ [])
    ∧ 1 ∉ (group_buffer_pop_batch (group_buffer_push emptyGroupStore 1 c6Msg) 1 20).1.registry :=
  ⟨(push_registers_full_pop_deregisters emptyGroupStore 1 c6Msg 20).1,
   (push_registers_full_pop_deregisters (group_buffer_push emptyGroupStore 1 c6Msg)
       1 c6Msg 20).2
     (group_buffer_pop_batch (group_buffer_push emptyGroupStore 1 c6Msg) 1 20).1
     (group_buffer_pop_batch (group_buffer_push emptyGroupStore 1 c6Msg) 1 20).2
     rfl (by decide) (by decide)⟩

theorem mem_saddInt (l : List Int) (x : Int) : x ∈ saddInt l x := by
  unfold saddInt
  split
  · assumption
  · simp

theorem collect_collect_eq (s : GroupStore) (chat : Int) (m : GroupMsg) :
    collect_group_message (collect_group_message s chat m) chat m
      = collect_group_message s chat m := by
  by_cases h : group_seen_check s chat m.message_id = true
  · unfold collect_group_message
    simp [h]
  · have h2 : group_seen_check (collect_group_message s chat m) chat m.message_id
        = true := by
      rw [collect_group_message, if_neg h]
      simp [group_seen_check, group_buffer_push, group_seen_add, List.elem_iff,
        mem_saddInt]
    rw [collect_group_message, if_pos h2]

/-- C8: `collect_group_message` is idempotent in `(chatId, messageId)`:
a second call with the same message is a no-op (the id is found in the
chat's seen set), and for a message not yet seen and not yet buffered,
two sequential calls leave exactly one buffered entry carrying its
message id. -/
theorem collect_group_message_idempotent (s : GroupStore) (chat : Int) (m : GroupMsg)
    (hseen : group_seen_check s chat m.message_id = false)
    (hcount : (s.buffers chat).countP (fun gm => gm.message_id == m.message_id) = 0) :
    collect_group_message (collect_group_message s chat m) chat m
      = collect_group_message s chat m
    ∧ ((collect_group_message (collect_group_message s chat m) chat m).buffers chat).countP
        (fun gm => gm.message_id == m.message_id) = 1 := by
  refine ⟨collect_collect_eq s chat m, ?_⟩
  rw [collect_collect_eq]
  rw [collect_group_message, if_neg (by simp [hseen])]
  have hb : (group_buffer_push (group_seen_add s chat m.message_id) chat m).buffers chat
      = ltrimLast GROUP_BUFFER_MAX (s.buffers chat ++ [m]) := by
    simp [group_buffer_push, group_seen_add]
  rw [hb]
  have hk : (s.buffers chat ++ [m]).length - GROUP_BUFFER_MAX ≤ (s.buffers chat).length := by
    simp only [List.length_append, List.length_cons, List.length_nil, GROUP_BUFFER_MAX]
    omega
  unfold ltrimLast
  rw [List.drop_append_of_le_length hk, List.countP_append]
  have hz : ((s.buffers chat).drop ((s.buffers chat ++ [m]).length - GROUP_BUFFER_MAX)).countP
      (fun gm => gm.message_id == m.message_id) = 0 := by
    have hle := (List.drop_sublist ((s.buffers chat ++ [m]).length - GROUP_BUFFER_MAX)
      (s.buffers chat)).countP_le (p := fun gm => gm.message_id == m.message_id)
    omega
  rw [hz]
  simp

/-- Witness for C8 at a concrete input: message 11 collected twice for
chat 3 starting from the empty store. -/
theorem collect_group_message_idempotent_witness :
    collect_group_message (collect_group_message emptyGroupStore 3 ⟨11, 4, "hi"⟩) 3
        ⟨11, 4, "hi"⟩
      = collect_group_message emptyGroupStore 3 ⟨11, 4, "hi"⟩
    ∧ ((collect_group_message (collect_group_message emptyGroupStore 3 ⟨11, 4, "hi"⟩) 3
          ⟨11, 4, "hi"⟩).buffers 3).countP
        (fun gm => gm.message_id == (⟨11, 4, "hi"⟩ : GroupMsg).message_id) = 1 :=
  collect_group_message_idempotent emptyGroupStore 3 ⟨11, 4, "hi"⟩ rfl rfl

theorem findFinalAi_eq_findSome (l : List ChatMsg) :
    findFinalAi l = l.findSome? (fun m =>
      match m with
      | .ai c [] => some c
      | _ => none) := by
  induction l with
  | nil => rfl
  | cons m rest ih =>
      cases m with
      | human c => simp [findFinalAi, List.findSome?_cons, ih]
      | tool c => simp [findFinalAi, List.findSome?_cons, ih]
      | ai c tc =>
          cases tc with
          | nil => simp [findFinalAi, List.findSome?_cons]
          | cons a as => simp [findFinalAi, List.findSome?_cons, ih]

theorem extractFinal_eq_resume_copy (msgs : List ChatMsg) :
    extractFinal msgs = extractFinalResume msgs := by
  unfold extractFinal extractFinalResume
  exact findFinalAi_eq_findSome msgs.reverse

/-- C2 counterexample: the live worker pool (workers/worker.py — the
pool `bot/main.py` instantiates) drops a dequeued `resume` job as an
unknown type with a warning instead of dispatching it to a resume
handler. -/
theorem resume_job_dropped_as_unknown :
    worker_dispatch (resumeJob "thread-1" 42 "use the v2 endpoint")
      = WorkerDispatch.unknownType
    ∧ worker_loop_iter (fun _ => Except.ok []) (fun _ => Except.ok [])
        (some (resumeJob "thread-1" 42 "use the v2 endpoint"))
      = LoopEvent.warnedUnknown := by
  exact ⟨by decide, by decide⟩

/-- C2 amended: only the legacy pool in queue/worker.py dispatches a
dequeued Resume job to a resume handler.  There the job goes to
`_handle_resume`, which re-invokes the Agent with a resume-with-value =
humanReply command against the job's threadId and then delivers the
resulting assistant message to the user's chat exactly the way the
NewTurn delivery step does; the live pool drops the job as an unknown
type. -/
theorem legacy_resume_handler_delivers_like_new_turn
    (graph : GraphCall → List ChatMsg) (thread_id : String)
    (user_chat_id : Int) (human_reply : String) :
    queue_worker_dispatch (resumeJob thread_id user_chat_id human_reply)
      = QueueWorkerDispatch.toHandleResume
    ∧ queue_handle_resume graph thread_id user_chat_id human_reply
      = queue_new_delivery user_chat_id (graph (.resumeCmd human_reply thread_id))
    ∧ worker_dispatch (resumeJob thread_id user_chat_id human_reply)
      = WorkerDispatch.unknownType := by
  refine ⟨rfl, ?_, rfl⟩
  unfold queue_handle_resume queue_new_delivery
  rw [extractFinal_eq_resume_copy]

/-- C5: the live worker loop catches every handler outcome at the loop
boundary and keeps consuming: over any finite dequeue trace and ANY
handler behaviour (including raising), the loop produces exactly one
event per trace item and processing distributes over concatenation, so
no handler error or unknown job type ever truncates the processing of
subsequent jobs; a raising handler becomes a logged event and an
unknown job type a warning. -/
theorem worker_loop_survives (hNew hAdmin : JObj → Except String (List SendEffect))
    (xs ys : List (Option JObj)) :
    worker_loop_run hNew hAdmin (xs ++ ys)
      = worker_loop_run hNew hAdmin xs ++ worker_loop_run hNew hAdmin ys
    ∧ (worker_loop_run hNew hAdmin xs).length = xs.length
    ∧ (∀ job e, worker_dispatch job = WorkerDispatch.toHandleNew →
        hNew job = Except.error e →
        worker_loop_iter hNew hAdmin (some job) = LoopEvent.loggedError e)
    ∧ (∀ job, worker_dispatch job = WorkerDispatch.unknownType →
        worker_loop_iter hNew hAdmin (some job) = LoopEvent.warnedUnknown) := by
  refine ⟨?_, ?_, ?_, ?_⟩
  · induction xs with
    | nil => rfl
    | cons x rest ih => simp [worker_loop_run, ih]
  · induction xs with
    | nil => rfl
    | cons x rest ih => simp [worker_loop_run, ih]
  · intro job e hd he
    simp [worker_loop_iter, hd, he]
  · intro job hd
    simp [worker_loop_iter, hd]

/-- Witness for C5 at concrete inputs: a handler that always raises is
logged for a `new` job, and a `resume` job is warned as unknown. -/
theorem worker_loop_survives_witness :
    worker_loop_iter (fun _ => Except.error "boom") (fun _ => Except.ok [])
        (some (newMessageJob 1 2 "t-5" "hi" none false)) = LoopEvent.loggedError "boom"
    ∧ worker_loop_iter (fun _ => Except.error "boom") (fun _ => Except.ok [])
        (some (resumeJob "t-5" 2 "ans")) = LoopEvent.warnedUnknown :=
  ⟨(worker_loop_survives (fun _ => Except.error "boom") (fun _ => Except.ok []) [] []).2.2.1
      (newMessageJob 1 2 "t-5" "hi" none false) "boom" (by decide) rfl,
   (worker_loop_survives (fun _ => Except.error "boom") (fun _ => Except.ok []) [] []).2.2.2
      (resumeJob "t-5" 2 "ans") (by decide)⟩

/-- C3 counterexample: on the live NewTurn handler
(workers/worker.py `_handle_new`) a turn in which the agent escalated —
the `ask_human` tool call is in the transcript — is still treated as a
completed turn: the final assistant message IS delivered to the user's
chat, contradicting part (d) of the claim. -/
theorem escalated_turn_still_delivers_final_message :
    escalatedMsgs.contains (ChatMsg.ai "" ["ask_human"]) = true
    ∧ handle_new_run (fun _ => escalatedMsgs) true escalatedJob
      = Except.ok ([⟨1, 5, "thread-1", "how do I reset my config?",
               some "The team will reach out shortly."⟩],
             [⟨5, "The team will reach out shortly.", none⟩]) := by
  exact ⟨by decide, rfl⟩

/-- C3 amended: in the live code the Agent never signals suspension to
the handler; escalation happens inside the Agent invocation via the
`ask_human` tool, which (a) notifies the admin group with the
escalation question and thread id, the outbound message id being the
captured handle, (b) writes the EscalationPending hash keyed by that
handle (readable for the 72h TTL) and an `Escalation` DB row, and
returns a fixed holding-acknowledgment string as the tool result; the
NewTurn handler then completes the turn normally, delivering the
agent's final assistant message (with the job's reply-to id) to the
user's chat. -/
theorem ask_human_escalation_flow (admin_group_id : Int) (ps : PendingStore)
    (now : Nat) (thread_id : String) (user_chat_id user_id : Int)
    (question : String) (sent_message_id : Int) :
    (ask_human_run admin_group_id ps now thread_id user_chat_id user_id question
        sent_message_id).notify = ⟨admin_group_id, question, thread_id⟩
    ∧ (∀ t, t < now + ADMIN_PENDING_TTL →
        hgetallPending (ask_human_run admin_group_id ps now thread_id user_chat_id
            user_id question sent_message_id).store t sent_message_id
          = some ⟨thread_id, toString user_chat_id, toString user_id, question⟩)
    ∧ (ask_human_run admin_group_id ps now thread_id user_chat_id user_id question
        sent_message_id).db_rows
        = [⟨thread_id, user_chat_id, question, sent_message_id⟩]
    ∧ (ask_human_run admin_group_id ps now thread_id user_chat_id user_id question
        sent_message_id).tool_return = ask_human_ack
    ∧ (∀ (graph : GraphCall → List ChatMsg) (j : NewTurnFields) m,
        extractFinal (graph (.newTurn j.text j.thread_id j.chat_id j.user_id
            j.is_admin_chat)) = some m →
        handle_new_run graph true j
          = Except.ok ([⟨j.user_id, j.chat_id, j.thread_id, j.text, some m⟩],
                 [⟨j.chat_id, m, j.reply_message_id⟩])) := by
  refine ⟨rfl, ?_, rfl, rfl, ?_⟩
  · intro t ht
    simp [ask_human_run, set_admin_pending, hgetallPending, ht]
  · intro graph j m hm
    simp [handle_new_run, hm]

/-- Witness for C3 amended at concrete inputs: an escalation registered
at time 0 under handle 77 is readable at time 10, and a turn whose
agent result ends in the AI message "done" is delivered to chat 6 with
reply-to 44. -/
theorem ask_human_escalation_flow_witness :
    hgetallPending (ask_human_run (-100) (fun _ => none) 0 "t-3" 5 9 "q3" 77).store 10 77
      = some ⟨"t-3", "5", "9", "q3"⟩
    ∧ handle_new_run (fun _ => [ChatMsg.ai "done" []]) true
        ⟨2, 6, "t-3w", "hello", some 44, false⟩
      = Except.ok ([⟨2, 6, "t-3w", "hello", some "done"⟩], [⟨6, "done", some 44⟩]) :=
  ⟨(ask_human_escalation_flow (-100) (fun _ => none) 0 "t-3" 5 9 "q3" 77).2.1
      10 (by decide),
   (ask_human_escalation_flow (-100) (fun _ => none) 0 "t-3" 5 9 "q3" 77).2.2.2.2
      (fun _ => [ChatMsg.ai "done" []]) ⟨2, 6, "t-3w", "hello", some 44, false⟩
      "done" (by decide)⟩

/-- C4 counterexample: a NewTurn job whose agent run produced an
assistant message but whose persistence step raises.  `_handle_new`
awaits the DB commit BEFORE `bot.send_message` with no exception
handling, so the error propagates and the message is never delivered:
the user-visible turn does not complete. -/
theorem log_failure_drops_delivery :
    extractFinal [ChatMsg.ai "hello" []] = some "hello"
    ∧ handle_new_run (fun _ => [ChatMsg.ai "hello" []]) false
        ⟨1, 5, "t-4", "hi", none, false⟩
      = Except.error "database commit failed"
    ∧ sendsOf (handle_new_run (fun _ => [ChatMsg.ai "hello" []]) false
        ⟨1, 5, "t-4", "hi", none, false⟩) = [] := by
  exact ⟨rfl, rfl, rfl⟩

/-- C4 amended: delivery requires the persistence step to succeed.  If
the DB write raises, `_handle_new` propagates the error before the send
and nothing is sent for that turn; the worker loop's generic catch then
logs it and continues with the next dequeue (only the turn is lost, not
the worker).  When persistence succeeds and the agent produced a
message, exactly that message is delivered with the job's reply-to
id. -/
theorem delivery_requires_log_success (graph : GraphCall → List ChatMsg)
    (j : NewTurnFields) :
    handle_new_run graph false j = Except.error "database commit failed"
    ∧ sendsOf (handle_new_run graph false j) = []
    ∧ (∀ m, extractFinal (graph (.newTurn j.text j.thread_id j.chat_id j.user_id
          j.is_admin_chat)) = some m →
        sendsOf (handle_new_run graph true j) = [⟨j.chat_id, m, j.reply_message_id⟩])
    ∧ (∀ e, worker_loop_run (fun _ => Except.error e) (fun _ => Except.ok [])
          [some (newMessageJob j.user_id j.chat_id j.thread_id j.text
              j.reply_message_id j.is_admin_chat), none]
        = [LoopEvent.loggedError e, LoopEvent.timedOut]) := by
  refine ⟨rfl, rfl, ?_, ?_⟩
  · intro m hm
    simp [handle_new_run, sendsOf, hm]
  · intro e
    rfl

/-- Witness for C4 amended at concrete inputs: with persistence
succeeding, the agent's message "all good" is delivered to chat 8 with
reply-to 12. -/
theorem delivery_requires_log_success_witness :
    sendsOf (handle_new_run (fun _ => [ChatMsg.ai "all good" []]) true
        ⟨3, 8, "t-4w", "ping", some 12, false⟩)
      = [⟨8, "all good", some 12⟩] :=
  (delivery_requires_log_success (fun _ => [ChatMsg.ai "all good" []])
      ⟨3, 8, "t-4w", "ping", some 12, false⟩).2.2.1 "all good" (by decide)
